import Mathlib

/-! # DevOps dashboard client (`frontend/src/App.jsx`)

A shallow embedding of the `App` component's state and of the three pieces of
code that change it: `checkStatus` (the status poll), `addLog` (the log feed)
and `runCommand` (the command dispatcher), together with the two render-time
observations of that state (the connectivity label and the class of a log
line).

Conventions of the embedding:

* React state (`logs`, `loading`, `isOnline`) is a record passed explicitly;
  a `setX(v)` call is a record update and `setLogs(prev => ...)` is the
  updater applied to the current log.
* An `async` function is split at its single `await`: the code before it and
  the continuation after it are separate functions, so other events can be
  interleaved between them.
* The result of an axios call is an `Outcome`: the promise either resolves
  with a response whose `data` is a JavaScript value, or rejects (network
  error, timeout, status outside 2xx).
* `new Date().toLocaleTimeString()` is an input: the string it returned is a
  parameter of every function that appends to the log.
-/

namespace DevOpsPlatform

/-! ## JavaScript values -/

/-- JavaScript values a response body can hold. A number is carried by its
canonical rendering (the text `String(n)` yields), which determines both
observations the code makes of it: its text and its truthiness. An object is
the list of its own properties. -/
inductive JSVal where
  | undefined : JSVal
  | null : JSVal
  | bool (b : Bool) : JSVal
  | num (text : String) : JSVal
  | str (s : String) : JSVal
  | arr (items : List JSVal) : JSVal
  | obj (fields : List (String × JSVal)) : JSVal

/-- The exception a JavaScript expression may raise; the code never inspects
the caught value, so one constructor is enough. -/
inductive JSError where
  | thrown : JSError

/-- Own-property lookup in an object's property list. -/
def lookupField (k : String) : List (String × JSVal) → Option JSVal
  | [] => none
  | (k', v) :: rest => if k' = k then some v else lookupField k rest

/-- Property read `v.k` for a data property name `k` that no built-in prototype
defines (the source reads only `online` and `message`): reading from
`undefined` or `null` throws, an object yields its own property or
`undefined`, every other value yields `undefined`. -/
def JSVal.getProp (v : JSVal) (k : String) : Except JSError JSVal :=
  match v with
  | .undefined => .error .thrown
  | .null => .error .thrown
  | .obj fields =>
    match lookupField k fields with
    | some x => .ok x
    | none => .ok .undefined
  | _ => .ok .undefined

/-- Truthiness, as tested by `cond ? a : b`. -/
def JSVal.truthy : JSVal → Bool
  | .undefined => false
  | .null => false
  | .bool b => b
  | .num text => !(text == "0" || text == "NaN")
  | .str s => !(s == "")
  | .arr _ => true
  | .obj _ => true

mutual
/-- String conversion as performed by a template literal. A plain object
converts through `Object.prototype.toString` unless an own `toString`
property shadows it; such a property is never callable in parsed data, and
the conversion then throws. An array converts by joining its items. -/
def JSVal.toStr : JSVal → Except JSError String
  | .undefined => .ok "undefined"
  | .null => .ok "null"
  | .bool true => .ok "true"
  | .bool false => .ok "false"
  | .num text => .ok text
  | .str s => .ok s
  | .arr items => joinItems items
  | .obj fields =>
    match lookupField "toString" fields with
    | some _ => .error .thrown
    | none => .ok "[object Object]"
/-- The text produced by `Array.prototype.join` with the separator `,`: `undefined` and
`null` items contribute the empty string. -/
def joinItems : List JSVal → Except JSError String
  | [] => .ok ""
  | [x] => itemStr x
  | x :: y :: rest =>
    match itemStr x with
    | .error e => .error e
    | .ok sx =>
      match joinItems (y :: rest) with
      | .error e => .error e
      | .ok sr => .ok (sx ++ "," ++ sr)
/-- The text of one array item inside a join. -/
def itemStr : JSVal → Except JSError String
  | .undefined => .ok ""
  | .null => .ok ""
  | .bool true => .ok "true"
  | .bool false => .ok "false"
  | .num text => .ok text
  | .str s => .ok s
  | .arr items => joinItems items
  | .obj fields =>
    match lookupField "toString" fields with
    | some _ => .error .thrown
    | none => .ok "[object Object]"
end

/-- Settled result of an axios request: resolved with the response's `data`, or
rejected. -/
inductive Outcome where
  | resolved (data : JSVal) : Outcome
  | rejected : Outcome

/-- The value an `await` of the request yields inside a `try` block. -/
def Outcome.await : Outcome → Except JSError JSVal
  | .resolved data => .ok data
  | .rejected => .error .thrown

/-! ## Component state -/

/-- The three `useState` cells of `App`. `isOnline` holds whatever value was
last passed to `setIsOnline`. -/
structure AppState where
  logs : List String
  loading : Bool
  isOnline : JSVal

/-- State after the first render. -/
def initialState : AppState :=
  { logs := ["[SYSTEM] Dashboard initialized."], loading := false, isOnline := .bool false }

/-! ## The log feed -/

/-- The source's `addLog(msg)`: `setLogs(prev => [entry, ...prev])` with the entry
built by the template literal, `time` being the locale time string read at
that moment. -/
def addLog (s : AppState) (time msg : String) : AppState :=
  { s with logs := ("[" ++ time ++ "] " ++ msg) :: s.logs }

/-! ## The status poll -/

/-- Body of the `try` block of `checkStatus`, after the request has settled with
`o`: read `res.data.online` and pass it to `setIsOnline`. -/
def checkStatusTry (s : AppState) (o : Outcome) : Except JSError AppState :=
  match o.await with
  | .error e => .error e
  | .ok data =>
    match data.getProp "online" with
    | .error e => .error e
    | .ok v => .ok { s with isOnline := v }

/-- One poll cycle, `checkStatus`, once its request has settled with `o`: the
`try` block, and `setIsOnline(false)` in the `catch`. -/
def checkStatus (s : AppState) (o : Outcome) : AppState :=
  match checkStatusTry s o with
  | .ok s' => s'
  | .error _ => { s with isOnline := .bool false }

/-! ## The command dispatcher -/

/-- First half of `runCommand(cmdKey)`, up to the `await`: `setLoading(true)` and
the "Sending command" entry. -/
def runCommandStart (s : AppState) (cmdKey time : String) : AppState :=
  addLog { s with loading := true } time ("Sending command: " ++ cmdKey)

/-- Body of the `try` block of `runCommand` after the request has settled with
`o`: the template literal reads `res.data.message` and converts it to text,
then `addLog` appends the entry. -/
def runCommandTry (s : AppState) (o : Outcome) (time : String) : Except JSError AppState :=
  match o.await with
  | .error e => .error e
  | .ok data =>
    match data.getProp "message" with
    | .error e => .error e
    | .ok m =>
      match m.toStr with
      | .error e => .error e
      | .ok text => .ok (addLog s time ("Success: " ++ text))

/-- Second half of `runCommand`, the continuation resumed when the request
settles with `o`: the `try` block, the `catch` with its error entry, then
`setLoading(false)`. -/
def runCommandSettle (s : AppState) (o : Outcome) (time : String) : AppState :=
  let s' :=
    match runCommandTry s o time with
    | .ok s1 => s1
    | .error _ => addLog s time "!! ERROR: Failed to reach backend !!"
  { s' with loading := false }

/-- A whole `runCommand(cmdKey)` call with no other event between its start (at
time `t1`) and its settlement (with `o`, at time `t2`). -/
def runCommand (s : AppState) (cmdKey t1 : String) (o : Outcome) (t2 : String) : AppState :=
  runCommandSettle (runCommandStart s cmdKey t1) o t2

/-! ## Render-time observations -/

/-- JavaScript's `s.includes(pat)`: `pat` occurs in `s` as a contiguous run. -/
def includes (s pat : String) : Bool :=
  decide (pat.toList <:+: s.toList)

/-- Text of the header badge: `isOnline ? "Bridge Live" : "Bridge Down"`. -/
def statusLabel (s : AppState) : String :=
  if s.isOnline.truthy then "Bridge Live" else "Bridge Down"

/-- Whether a log line is rendered with error severity: the test
`log.includes('ERROR')` that selects its class. -/
def isErrorLine (log : String) : Bool :=
  includes log "ERROR"

/-- The `className` of a rendered log line. -/
def logClass (log : String) : String :=
  if isErrorLine log then "text-red-400" else "text-green-400 opacity-80"

/-- Whether the two command buttons are disabled: `disabled={loading}`. -/
def buttonsDisabled (s : AppState) : Bool :=
  s.loading

/-! ## Event-level model -/

/-- The component together with the `runCommand` calls suspended at their
`await`: each of them will resume exactly once. -/
structure Sys where
  app : AppState
  inFlight : Nat

/-- What can happen to a mounted component. -/
inductive Event where
  | pollSettled (o : Outcome) : Event
  | dispatchStart (cmdKey time : String) : Event
  | dispatchSettled (o : Outcome) (time : String) : Event

/-- The mounted component before any event. -/
def Sys.init : Sys :=
  { app := initialState, inFlight := 0 }

/-- One event. `runCommand` has no guard of its own, so a dispatch may start in
any state; a settlement needs a suspended call to resume. -/
def step (σ : Sys) : Event → Option Sys
  | .pollSettled o => some { σ with app := checkStatus σ.app o }
  | .dispatchStart cmdKey time =>
    some { app := runCommandStart σ.app cmdKey time, inFlight := σ.inFlight + 1 }
  | .dispatchSettled o time =>
    if σ.inFlight = 0 then none
    else some { app := runCommandSettle σ.app o time, inFlight := σ.inFlight - 1 }

/-- One event as the rendered page allows it: a dispatch starts from a button
click, and the buttons are disabled while `loading` holds. -/
def stepUI (σ : Sys) (e : Event) : Option Sys :=
  match e with
  | .dispatchStart _ _ => if buttonsDisabled σ.app then none else step σ e
  | _ => step σ e

/-- A sequence of events, left to right. -/
def run (σ : Sys) : List Event → Option Sys
  | [] => some σ
  | e :: es =>
    match step σ e with
    | none => none
    | some σ' => run σ' es

/-- A sequence of events, each allowed by the rendered page. -/
def runUI (σ : Sys) : List Event → Option Sys
  | [] => some σ
  | e :: es =>
    match stepUI σ e with
    | none => none
    | some σ' => runUI σ' es

/-- States the component can be in when callers invoke `runCommand` freely. -/
def Reachable (σ : Sys) : Prop :=
  ∃ es, run Sys.init es = some σ

/-- States the component can be in when dispatches start from the buttons only. -/
def ReachableUI (σ : Sys) : Prop :=
  ∃ es, runUI Sys.init es = some σ

/-! ## Invariants of the busy flag -/

/-- Holds in every reachable state: with no dispatch in flight, `loading` is
false. -/
def IdleInv (σ : Sys) : Prop :=
  σ.inFlight = 0 → σ.app.loading = false

/-- Holds in every state reachable through the buttons: `loading` tells whether
a dispatch is in flight, and at most one is. -/
def GatedInv (σ : Sys) : Prop :=
  (σ.app.loading = true ↔ 0 < σ.inFlight) ∧ σ.inFlight ≤ 1

/-! ## Basic facts about the operations -/

theorem addLog_logs (s : AppState) (time msg : String) :
    (addLog s time msg).logs = ("[" ++ time ++ "] " ++ msg) :: s.logs := rfl

theorem addLog_loading (s : AppState) (time msg : String) :
    (addLog s time msg).loading = s.loading := rfl

theorem addLog_isOnline (s : AppState) (time msg : String) :
    (addLog s time msg).isOnline = s.isOnline := rfl

/-- The `try` block of `runCommand` either throws or appends one "Success" entry. -/
theorem runCommandTry_ok (s s1 : AppState) (o : Outcome) (time : String)
    (h : runCommandTry s o time = .ok s1) :
    ∃ text, s1 = addLog s time ("Success: " ++ text) := by
  unfold runCommandTry at h
  split at h
  · cases h
  · split at h
    · cases h
    · split at h
      · cases h
      · rename_i text _
        refine ⟨text, ?_⟩
        injection h with h
        exact h.symm

/-- The settlement of a dispatch puts exactly one entry in front of the log, and
the entry does not depend on the state it is added to. -/
theorem runCommandSettle_logs (o : Outcome) (time : String) :
    ∃ entry, ∀ s : AppState, (runCommandSettle s o time).logs = entry :: s.logs := by
  cases o with
  | rejected =>
    exact ⟨"[" ++ time ++ "] " ++ "!! ERROR: Failed to reach backend !!", fun s => by
      simp [runCommandSettle, runCommandTry, Outcome.await, addLog]⟩
  | resolved data =>
    cases hg : data.getProp "message" with
    | error e =>
      exact ⟨"[" ++ time ++ "] " ++ "!! ERROR: Failed to reach backend !!", fun s => by
        simp [runCommandSettle, runCommandTry, Outcome.await, hg, addLog]⟩
    | ok m =>
      cases ht : m.toStr with
      | error e =>
        exact ⟨"[" ++ time ++ "] " ++ "!! ERROR: Failed to reach backend !!", fun s => by
          simp [runCommandSettle, runCommandTry, Outcome.await, hg, ht, addLog]⟩
      | ok text =>
        exact ⟨"[" ++ time ++ "] " ++ ("Success: " ++ text), fun s => by
          simp [runCommandSettle, runCommandTry, Outcome.await, hg, ht, addLog]⟩

theorem runCommandSettle_loading (s : AppState) (o : Outcome) (time : String) :
    (runCommandSettle s o time).loading = false := rfl

theorem runCommandSettle_isOnline (s : AppState) (o : Outcome) (time : String) :
    (runCommandSettle s o time).isOnline = s.isOnline := by
  unfold runCommandSettle
  cases h : runCommandTry s o time with
  | error e => rfl
  | ok s1 =>
    obtain ⟨text, rfl⟩ := runCommandTry_ok _ _ _ _ h
    rfl

theorem runCommandStart_logs (s : AppState) (cmdKey time : String) :
    (runCommandStart s cmdKey time).logs
      = ("[" ++ time ++ "] " ++ ("Sending command: " ++ cmdKey)) :: s.logs := rfl

theorem checkStatus_logs (s : AppState) (o : Outcome) :
    (checkStatus s o).logs = s.logs := by
  cases o with
  | rejected => rfl
  | resolved data =>
    cases hg : data.getProp "online" with
    | error e => simp [checkStatus, checkStatusTry, Outcome.await, hg]
    | ok v => simp [checkStatus, checkStatusTry, Outcome.await, hg]

theorem checkStatus_loading (s : AppState) (o : Outcome) :
    (checkStatus s o).loading = s.loading := by
  cases o with
  | rejected => rfl
  | resolved data =>
    cases hg : data.getProp "online" with
    | error e => simp [checkStatus, checkStatusTry, Outcome.await, hg]
    | ok v => simp [checkStatus, checkStatusTry, Outcome.await, hg]

/-! ## Substring search across a separator -/

theorem prefix_of_prefix_append_sep {pat a b : List Char} {c : Char} (hc : c ∉ pat)
    (h : pat <+: a ++ c :: b) : pat <+: a := by
  induction a generalizing pat with
  | nil =>
    rcases List.prefix_cons_iff.mp h with h0 | ⟨t, ht, -⟩
    · subst h0; exact List.nil_prefix
    · subst ht; exact absurd (List.mem_cons_self c t) hc
  | cons x a ih =>
    rcases List.prefix_cons_iff.mp h with h0 | ⟨t, ht, hp⟩
    · subst h0; exact List.nil_prefix
    · subst ht
      have hc' : c ∉ t := fun hm => hc (List.mem_cons_of_mem x hm)
      exact List.cons_prefix_cons.mpr ⟨rfl, ih hc' hp⟩

/-- A pattern that does not contain the separator `c` occurs in `a ++ c :: b`
exactly when it occurs in `a` or in `b`. -/
theorem infix_append_sep {pat a b : List Char} {c : Char} (hc : c ∉ pat) :
    pat <:+: a ++ c :: b ↔ pat <:+: a ∨ pat <:+: b := by
  induction a with
  | nil =>
    rw [List.nil_append, List.infix_cons_iff]
    constructor
    · rintro (h | h)
      · exact Or.inl (prefix_of_prefix_append_sep (a := []) hc h).isInfix
      · exact Or.inr h
    · rintro (h | h)
      · rw [List.infix_nil.mp h]; exact Or.inr List.nil_infix
      · exact Or.inr h
  | cons x a ih =>
    rw [List.cons_append, List.infix_cons_iff, List.infix_cons_iff, ih]
    constructor
    · rintro (h | h | h)
      · exact Or.inl (Or.inl (prefix_of_prefix_append_sep (a := x :: a) hc h))
      · exact Or.inl (Or.inr h)
      · exact Or.inr h
    · rintro ((h | h) | h)
      · obtain ⟨r, hr⟩ := h
        exact Or.inl ⟨r ++ c :: b, by rw [← List.append_assoc, hr, List.cons_append]⟩
      · exact Or.inr (Or.inl h)
      · exact Or.inr (Or.inr h)

/-- The class test on a log entry built by `addLog`: the brackets and the blank
around the time cannot take part in an occurrence of `ERROR`, so the pattern
lies either in the time string or in the message. -/
theorem isErrorLine_entry (time msg : String) :
    isErrorLine ("[" ++ time ++ "] " ++ msg)
      = (includes time "ERROR" || includes msg "ERROR") := by
  have hne : ¬ "ERROR".toList <:+: ([] : List Char) := by decide
  have h1 : '[' ∉ "ERROR".toList := by decide
  have h2 : ']' ∉ "ERROR".toList := by decide
  have h3 : ' ' ∉ "ERROR".toList := by decide
  have hl : ("[" ++ time ++ "] " ++ msg).toList
      = [] ++ '[' :: (time.toList ++ ']' :: ([] ++ ' ' :: msg.toList)) := by
    simp [String.toList]
  unfold isErrorLine includes
  rw [hl, Bool.eq_iff_iff]
  simp only [decide_eq_true_eq, Bool.or_eq_true]
  rw [infix_append_sep h1, infix_append_sep h2, infix_append_sep h3]
  tauto

/-! ## Sequences of events -/

theorem run_append (σ : Sys) (es fs : List Event) :
    run σ (es ++ fs) = (run σ es).bind (fun σ' => run σ' fs) := by
  induction es generalizing σ with
  | nil => rfl
  | cons e es ih =>
    simp only [List.cons_append, run]
    cases step σ e with
    | none => rfl
    | some σ' => exact ih σ'

/-- No event removes, changes or reorders an existing log entry. -/
theorem step_logs_suffix (σ σ' : Sys) (e : Event) (h : step σ e = some σ') :
    σ.app.logs <:+ σ'.app.logs := by
  cases e with
  | pollSettled o =>
    simp only [step, Option.some.injEq] at h
    subst h
    simp [checkStatus_logs]
  | dispatchStart cmdKey time =>
    simp only [step, Option.some.injEq] at h
    subst h
    exact List.suffix_cons _ _
  | dispatchSettled o time =>
    simp only [step] at h
    split at h
    · cases h
    · simp only [Option.some.injEq] at h
      subst h
      obtain ⟨entry, he⟩ := runCommandSettle_logs o time
      simp only [he]
      exact List.suffix_cons _ _

theorem run_logs_suffix (σ σ' : Sys) (es : List Event) (h : run σ es = some σ') :
    σ.app.logs <:+ σ'.app.logs := by
  induction es generalizing σ with
  | nil =>
    simp only [run, Option.some.injEq] at h
    subst h
    exact List.suffix_refl _
  | cons e es ih =>
    simp only [run] at h
    cases hs : step σ e with
    | none => simp [hs] at h
    | some σ1 =>
      simp only [hs] at h
      exact (step_logs_suffix σ σ1 e hs).trans (ih σ1 h)

/-! ## The dispatcher: entries added, busy flag, scenarios -/

/-- C1: for every command key and every outcome of the backend call, one call
of `runCommand` adds exactly two entries to the log: the "Sending command"
entry at call start, before the request settles, and exactly one entry at
settlement (whatever the state then is), so that an uninterrupted call leaves
the log two entries longer. -/
theorem runCommand_adds_two_entries (s : AppState) (cmdKey t1 : String) (o : Outcome)
    (t2 : String) :
    (runCommandStart s cmdKey t1).logs
        = ("[" ++ t1 ++ "] " ++ ("Sending command: " ++ cmdKey)) :: s.logs
      ∧ (∃ entry, ∀ s' : AppState, (runCommandSettle s' o t2).logs = entry :: s'.logs)
      ∧ (∀ s' : AppState, (runCommandSettle s' o t2).logs.length = s'.logs.length + 1)
      ∧ (runCommand s cmdKey t1 o t2).logs.length = s.logs.length + 2 := by
  obtain ⟨entry, he⟩ := runCommandSettle_logs o t2
  refine ⟨rfl, ⟨entry, he⟩, fun s' => by rw [he]; rfl, ?_⟩
  unfold runCommand
  rw [he, runCommandStart_logs]
  rfl

/-- C2: from every starting state, for every command key and every outcome of
the backend call, `loading` is false once `runCommand` has settled; this
includes the outcomes where reading the response throws inside the `try`
block (a `null` body, a message that cannot be converted to text). -/
theorem runCommand_releases_busy_flag (s : AppState) (cmdKey t1 : String) (o : Outcome)
    (t2 : String) :
    (runCommandSettle s o t2).loading = false
      ∧ (runCommand s cmdKey t1 o t2).loading = false
      ∧ runCommandTry s (.resolved .null) t2 = .error .thrown
      ∧ (runCommandSettle s (.resolved .null) t2).loading = false
      ∧ runCommandTry s (.resolved (.obj [("message", .obj [("toString", .null)])])) t2
          = .error .thrown
      ∧ (runCommandSettle s (.resolved (.obj [("message", .obj [("toString", .null)])]))
          t2).loading = false :=
  ⟨rfl, rfl, rfl, rfl, rfl, rfl⟩

/-- C8: for every command key `k`, message `m` and prior log, a `runCommand(k)`
whose request resolves with a body whose `message` is the string `m`, with no
other event in between, ends with the log
`[t2] Success: m`, `[t1] Sending command: k`, then the prior log, and with
`loading` false. -/
theorem runCommand_success (s : AppState) (k m t1 t2 : String)
    (fields : List (String × JSVal)) (h : lookupField "message" fields = some (.str m)) :
    (runCommand s k t1 (.resolved (.obj fields)) t2).logs
        = ("[" ++ t2 ++ "] " ++ ("Success: " ++ m))
            :: ("[" ++ t1 ++ "] " ++ ("Sending command: " ++ k)) :: s.logs
      ∧ (runCommand s k t1 (.resolved (.obj fields)) t2).loading = false := by
  refine ⟨?_, rfl⟩
  simp [runCommand, runCommandSettle, runCommandTry, Outcome.await, JSVal.getProp, h,
    JSVal.toStr, runCommandStart, addLog]

/-- C8, at `k = "bridge_up"` and `m = "Bridge activated"`, from the initial state. -/
theorem runCommand_success_witness :
    lookupField "message" [("message", JSVal.str "Bridge activated")]
        = some (.str "Bridge activated")
      ∧ (runCommand initialState "bridge_up" "10:15:00 AM"
          (.resolved (.obj [("message", .str "Bridge activated")])) "10:15:02 AM").logs
        = ["[10:15:02 AM] Success: Bridge activated",
           "[10:15:00 AM] Sending command: bridge_up",
           "[SYSTEM] Dashboard initialized."]
      ∧ (runCommand initialState "bridge_up" "10:15:00 AM"
          (.resolved (.obj [("message", .str "Bridge activated")])) "10:15:02 AM").loading
        = false :=
  ⟨rfl, runCommand_success initialState "bridge_up" "Bridge activated" "10:15:00 AM"
    "10:15:02 AM" [("message", .str "Bridge activated")] rfl⟩

/-- C9: for every command key `k`, prior log and prior connectivity value, a
`runCommand(k)` whose request is rejected, with no other event in between,
ends with the log `[t2] !! ERROR: Failed to reach backend !!`,
`[t1] Sending command: k`, then the prior log, with `loading` false and
`isOnline` unchanged; and for every outcome neither half of `runCommand`
changes `isOnline`. -/
theorem runCommand_failure (s : AppState) (k t1 t2 : String) :
    (runCommand s k t1 .rejected t2).logs
        = ("[" ++ t2 ++ "] " ++ "!! ERROR: Failed to reach backend !!")
            :: ("[" ++ t1 ++ "] " ++ ("Sending command: " ++ k)) :: s.logs
      ∧ (runCommand s k t1 .rejected t2).loading = false
      ∧ (runCommand s k t1 .rejected t2).isOnline = s.isOnline
      ∧ (∀ o : Outcome,
          (runCommandStart s k t1).isOnline = s.isOnline
            ∧ (runCommandSettle s o t2).isOnline = s.isOnline
            ∧ (runCommand s k t1 o t2).isOnline = s.isOnline) := by
  refine ⟨rfl, rfl, rfl, fun o => ⟨rfl, runCommandSettle_isOnline s o t2, ?_⟩⟩
  unfold runCommand
  rw [runCommandSettle_isOnline]
  rfl

/-- C9, at `k = "terraform"`, from a state in which the last poll found the
backend online. -/
theorem runCommand_failure_witness :
    (runCommand { initialState with isOnline := .bool true } "terraform" "10:15:00 AM"
        .rejected "10:15:30 AM").logs
        = ["[10:15:30 AM] !! ERROR: Failed to reach backend !!",
           "[10:15:00 AM] Sending command: terraform",
           "[SYSTEM] Dashboard initialized."]
      ∧ statusLabel (runCommand { initialState with isOnline := .bool true } "terraform"
          "10:15:00 AM" .rejected "10:15:30 AM") = "Bridge Live" := by
  have h := runCommand_failure { initialState with isOnline := .bool true } "terraform"
    "10:15:00 AM" "10:15:30 AM"
  refine ⟨h.1, ?_⟩
  unfold statusLabel
  rw [h.2.2.1]
  rfl

/-! ## The busy flag under interleaving -/

theorem step_idleInv (σ σ' : Sys) (e : Event) (h : step σ e = some σ') (inv : IdleInv σ) :
    IdleInv σ' := by
  cases e with
  | pollSettled o =>
    simp only [step, Option.some.injEq] at h
    subst h
    intro h0
    simpa [checkStatus_loading] using inv h0
  | dispatchStart cmdKey time =>
    simp only [step, Option.some.injEq] at h
    subst h
    intro h0
    simp at h0
  | dispatchSettled o time =>
    simp only [step] at h
    split at h
    · cases h
    · simp only [Option.some.injEq] at h
      subst h
      intro _
      rfl

theorem run_idleInv (σ σ' : Sys) (es : List Event) (h : run σ es = some σ')
    (inv : IdleInv σ) : IdleInv σ' := by
  induction es generalizing σ with
  | nil =>
    simp only [run, Option.some.injEq] at h
    subst h
    exact inv
  | cons e es ih =>
    simp only [run] at h
    cases hs : step σ e with
    | none => simp [hs] at h
    | some σ1 =>
      simp only [hs] at h
      exact ih σ1 h (step_idleInv σ σ1 e hs inv)

theorem stepUI_gatedInv (σ σ' : Sys) (e : Event) (h : stepUI σ e = some σ')
    (inv : GatedInv σ) : GatedInv σ' := by
  obtain ⟨hiff, hle⟩ := inv
  cases e with
  | pollSettled o =>
    simp only [stepUI, step, Option.some.injEq] at h
    subst h
    exact ⟨by simpa [checkStatus_loading] using hiff, hle⟩
  | dispatchStart cmdKey time =>
    simp only [stepUI, buttonsDisabled] at h
    split at h
    · cases h
    · rename_i hl
      simp only [step, Option.some.injEq] at h
      subst h
      have h0 : σ.inFlight = 0 := by
        by_contra hne
        exact hl (hiff.mpr (Nat.pos_of_ne_zero hne))
      refine ⟨⟨fun _ => Nat.succ_pos _, fun _ => rfl⟩, ?_⟩
      show σ.inFlight + 1 ≤ 1
      omega
  | dispatchSettled o time =>
    simp only [stepUI, step] at h
    split at h
    · cases h
    · rename_i hne
      simp only [Option.some.injEq] at h
      subst h
      have h1 : σ.inFlight - 1 = 0 := by omega
      refine ⟨⟨fun hl => ?_, fun hp => ?_⟩, ?_⟩
      · exact absurd hl (by simp [runCommandSettle_loading])
      · exact absurd hp (by show ¬ 0 < σ.inFlight - 1; omega)
      · show σ.inFlight - 1 ≤ 1
        omega

theorem runUI_gatedInv (σ σ' : Sys) (es : List Event) (h : runUI σ es = some σ')
    (inv : GatedInv σ) : GatedInv σ' := by
  induction es generalizing σ with
  | nil =>
    simp only [runUI, Option.some.injEq] at h
    subst h
    exact inv
  | cons e es ih =>
    simp only [runUI] at h
    cases hs : stepUI σ e with
    | none => simp [hs] at h
    | some σ1 =>
      simp only [hs] at h
      exact ih σ1 h (stepUI_gatedInv σ σ1 e hs inv)

theorem init_idleInv : IdleInv Sys.init := fun _ => rfl

theorem init_gatedInv : GatedInv Sys.init :=
  And.intro (Iff.intro (fun h => by cases h) (fun h => by cases h)) (Nat.zero_le _)

/-- C3, as stated, fails: two overlapping dispatches, the first of which settles
while the second is still suspended at its `await`, leave `loading` false with
one dispatch in flight. -/
theorem overlapping_dispatch_clears_busy_flag :
    (run Sys.init
        [.dispatchStart "bridge_up" "10:15:00 AM",
         .dispatchStart "terraform" "10:15:01 AM",
         .dispatchSettled (.resolved (.obj [("message", .str "Bridge activated")]))
           "10:15:02 AM"]).map (fun σ => (σ.app.loading, σ.inFlight))
      = some (false, 1) := by
  decide

/-- C3, amended: in every state reachable by poll results, dispatch starts and
dispatch settlements, `loading` is false whenever no dispatch is in flight;
and in every state reachable when dispatches start only while the buttons are
enabled, `loading` is true exactly when a dispatch is in flight, and at most
one is. -/
theorem busy_flag_tracks_dispatch (σ : Sys) :
    (Reachable σ → σ.inFlight = 0 → σ.app.loading = false)
      ∧ (ReachableUI σ → ((σ.app.loading = true ↔ 0 < σ.inFlight) ∧ σ.inFlight ≤ 1)) :=
  ⟨fun ⟨es, h⟩ => run_idleInv Sys.init σ es h init_idleInv,
   fun ⟨es, h⟩ => runUI_gatedInv Sys.init σ es h init_gatedInv⟩

/-- C3, amended, at two concrete runs: after a dispatch that failed the flag is
false with nothing in flight; with one dispatch started from a button and a
poll result arrived meanwhile the flag is true with one dispatch in flight. -/
theorem busy_flag_tracks_dispatch_witness :
    (∃ σ, run Sys.init
          [.dispatchStart "terraform" "10:15:00 AM", .dispatchSettled .rejected "10:15:30 AM"]
          = some σ ∧ σ.inFlight = 0 ∧ σ.app.loading = false)
      ∧ (∃ σ, runUI Sys.init
          [.dispatchStart "bridge_up" "10:15:00 AM",
           .pollSettled (.resolved (.obj [("online", .bool true)]))]
          = some σ ∧ σ.inFlight = 1 ∧ (σ.app.loading = true ↔ 0 < σ.inFlight)) :=
  ⟨⟨_, rfl, rfl,
      (busy_flag_tracks_dispatch _).1
        ⟨[.dispatchStart "terraform" "10:15:00 AM", .dispatchSettled .rejected "10:15:30 AM"],
          rfl⟩ rfl⟩,
   ⟨_, rfl, rfl,
      ((busy_flag_tracks_dispatch _).2
        ⟨[.dispatchStart "bridge_up" "10:15:00 AM",
          .pollSettled (.resolved (.obj [("online", .bool true)]))], rfl⟩).1⟩⟩

/-! ## The status poll -/

theorem checkStatus_field (s : AppState) (fields : List (String × JSVal)) (v : JSVal)
    (h : lookupField "online" fields = some v) :
    (checkStatus s (.resolved (.obj fields))).isOnline = v := by
  simp [checkStatus, checkStatusTry, Outcome.await, JSVal.getProp, h]

theorem checkStatus_no_field (s : AppState) (fields : List (String × JSVal))
    (h : lookupField "online" fields = none) :
    (checkStatus s (.resolved (.obj fields))).isOnline = .undefined := by
  simp [checkStatus, checkStatusTry, Outcome.await, JSVal.getProp, h]

/-- C4: for every poll cycle from every state, a response with `online: true`
sets `isOnline` to true (shown as live), a rejected request or a response
with `online: false` sets it to false (shown as down), and whatever the
outcome the poll leaves `logs` and `loading` as they were. -/
theorem checkStatus_effect (s : AppState) :
    (∀ o : Outcome,
        (checkStatus s o).logs = s.logs ∧ (checkStatus s o).loading = s.loading)
      ∧ (checkStatus s .rejected).isOnline = .bool false
      ∧ statusLabel (checkStatus s .rejected) = "Bridge Down"
      ∧ (∀ fields : List (String × JSVal), lookupField "online" fields = some (.bool true) →
          (checkStatus s (.resolved (.obj fields))).isOnline = .bool true
            ∧ statusLabel (checkStatus s (.resolved (.obj fields))) = "Bridge Live")
      ∧ (∀ fields : List (String × JSVal), lookupField "online" fields = some (.bool false) →
          (checkStatus s (.resolved (.obj fields))).isOnline = .bool false
            ∧ statusLabel (checkStatus s (.resolved (.obj fields))) = "Bridge Down") := by
  refine ⟨fun o => ⟨checkStatus_logs s o, checkStatus_loading s o⟩, rfl, rfl, ?_, ?_⟩
  · intro fields h
    have hv := checkStatus_field s fields _ h
    exact ⟨hv, by unfold statusLabel; rw [hv]; rfl⟩
  · intro fields h
    have hv := checkStatus_field s fields _ h
    exact ⟨hv, by unfold statusLabel; rw [hv]; rfl⟩

/-- C4, at two concrete polls: `{online: true}` received while a dispatch is in
progress, and `{online: false}` received in a state shown as live. -/
theorem checkStatus_effect_witness :
    (checkStatus (runCommandStart initialState "bridge_up" "10:15:00 AM")
        (.resolved (.obj [("online", .bool true)]))).isOnline = .bool true
      ∧ (checkStatus (runCommandStart initialState "bridge_up" "10:15:00 AM")
        (.resolved (.obj [("online", .bool true)]))).logs
          = ["[10:15:00 AM] Sending command: bridge_up", "[SYSTEM] Dashboard initialized."]
      ∧ (checkStatus (runCommandStart initialState "bridge_up" "10:15:00 AM")
        (.resolved (.obj [("online", .bool true)]))).loading = true
      ∧ statusLabel (checkStatus { initialState with isOnline := .bool true }
        (.resolved (.obj [("online", .bool false)]))) = "Bridge Down" :=
  ⟨((checkStatus_effect (runCommandStart initialState "bridge_up" "10:15:00 AM")).2.2.2.1
      [("online", .bool true)] rfl).1,
   ((checkStatus_effect (runCommandStart initialState "bridge_up" "10:15:00 AM")).1
      (.resolved (.obj [("online", .bool true)]))).1,
   ((checkStatus_effect (runCommandStart initialState "bridge_up" "10:15:00 AM")).1
      (.resolved (.obj [("online", .bool true)]))).2,
   ((checkStatus_effect { initialState with isOnline := .bool true }).2.2.2.2
      [("online", .bool false)] rfl).2⟩

/-- C5, as stated, fails: a status body whose `online` field is the non-empty
string `"yes"` leaves `isOnline` truthy, and the badge reads "Bridge Live". -/
theorem checkStatus_string_online_shows_live :
    (checkStatus initialState (.resolved (.obj [("online", .str "yes")]))).isOnline.truthy
        = true
      ∧ statusLabel (checkStatus initialState (.resolved (.obj [("online", .str "yes")])))
        = "Bridge Live" := by
  decide

/-- C5, amended: a status body that is absent (the empty string), or any other
string, number, boolean or array, sets `isOnline` to `undefined`, as does an
object without an `online` field; a body that is `null` or `undefined` sets
it to false; in all these cases the badge reads "Bridge Down". An `online`
field that is present is stored as it is: the badge reads "Bridge Down" when
the value is `undefined`, `null`, false, 0, NaN or the empty string, and
"Bridge Live" when it is true, a non-empty string, a non-zero number, an
array or an object. -/
theorem checkStatus_malformed_body (s : AppState) :
    ((checkStatus s (.resolved (.str ""))).isOnline = .undefined
        ∧ statusLabel (checkStatus s (.resolved (.str ""))) = "Bridge Down")
      ∧ ((checkStatus s (.resolved .null)).isOnline = .bool false
        ∧ statusLabel (checkStatus s (.resolved .null)) = "Bridge Down")
      ∧ ((checkStatus s (.resolved .undefined)).isOnline = .bool false
        ∧ statusLabel (checkStatus s (.resolved .undefined)) = "Bridge Down")
      ∧ (∀ data : JSVal, (∀ fields, data ≠ .obj fields) → data ≠ .null → data ≠ .undefined →
          (checkStatus s (.resolved data)).isOnline = .undefined
            ∧ statusLabel (checkStatus s (.resolved data)) = "Bridge Down")
      ∧ (∀ fields : List (String × JSVal), lookupField "online" fields = none →
          (checkStatus s (.resolved (.obj fields))).isOnline = .undefined
            ∧ statusLabel (checkStatus s (.resolved (.obj fields))) = "Bridge Down")
      ∧ (∀ (fields : List (String × JSVal)) (v : JSVal),
          lookupField "online" fields = some v →
          (checkStatus s (.resolved (.obj fields))).isOnline = v
            ∧ (v = .undefined ∨ v = .null ∨ v = .bool false ∨ v = .num "0" ∨ v = .num "NaN"
                  ∨ v = .str "" →
                statusLabel (checkStatus s (.resolved (.obj fields))) = "Bridge Down")
            ∧ (v = .bool true ∨ (∃ t, v = .str t ∧ t ≠ "")
                  ∨ (∃ t, v = .num t ∧ t ≠ "0" ∧ t ≠ "NaN")
                  ∨ (∃ items, v = .arr items) ∨ (∃ fs, v = .obj fs) →
                statusLabel (checkStatus s (.resolved (.obj fields))) = "Bridge Live")) := by
  refine ⟨⟨rfl, rfl⟩, ⟨rfl, rfl⟩, ⟨rfl, rfl⟩, ?_, ?_, ?_⟩
  · intro data hd hn hu
    cases data with
    | obj fields => exact absurd rfl (hd fields)
    | null => exact absurd rfl hn
    | undefined => exact absurd rfl hu
    | bool b => exact ⟨rfl, rfl⟩
    | num t => exact ⟨rfl, rfl⟩
    | str t => exact ⟨rfl, rfl⟩
    | arr items => exact ⟨rfl, rfl⟩
  · intro fields h
    refine ⟨checkStatus_no_field s fields h, ?_⟩
    unfold statusLabel
    rw [checkStatus_no_field s fields h]
    rfl
  · intro fields v h
    have hv := checkStatus_field s fields v h
    refine ⟨hv, ?_, ?_⟩
    · intro hcase
      unfold statusLabel
      rw [hv]
      rcases hcase with h | h | h | h | h | h <;> subst h <;> rfl
    · intro hcase
      unfold statusLabel
      rw [hv]
      rcases hcase with h | ⟨t, h, ht⟩ | ⟨t, h, h0, hN⟩ | ⟨items, h⟩ | ⟨fs, h⟩
      · subst h; rfl
      · subst h; simp [JSVal.truthy, ht]
      · subst h; simp [JSVal.truthy, h0, hN]
      · subst h; rfl
      · subst h; rfl

/-- C5, amended, at concrete bodies received while the badge reads live: an
empty body and an empty object are shown as down, `online: 0` is shown as
down, and `online: 1`, `online: []` and `online: "false"` are shown as live. -/
theorem checkStatus_malformed_body_witness :
    (checkStatus { initialState with isOnline := .bool true }
        (.resolved (.str ""))).isOnline = .undefined
      ∧ (checkStatus { initialState with isOnline := .bool true }
        (.resolved (.obj []))).isOnline = .undefined
      ∧ statusLabel (checkStatus { initialState with isOnline := .bool true }
        (.resolved (.obj []))) = "Bridge Down"
      ∧ statusLabel (checkStatus { initialState with isOnline := .bool true }
        (.resolved (.obj [("online", .num "0")]))) = "Bridge Down"
      ∧ statusLabel (checkStatus initialState
        (.resolved (.obj [("online", .num "1")]))) = "Bridge Live"
      ∧ statusLabel (checkStatus initialState
        (.resolved (.obj [("online", .arr [])]))) = "Bridge Live"
      ∧ statusLabel (checkStatus initialState
        (.resolved (.obj [("online", .str "false")]))) = "Bridge Live" :=
  ⟨((checkStatus_malformed_body { initialState with isOnline := .bool true }).2.2.2.1
      (.str "") (fun _ h => by cases h) (fun h => by cases h) (fun h => by cases h)).1,
   ((checkStatus_malformed_body { initialState with isOnline := .bool true }).2.2.2.2.1
      [] rfl).1,
   ((checkStatus_malformed_body { initialState with isOnline := .bool true }).2.2.2.2.1
      [] rfl).2,
   ((checkStatus_malformed_body { initialState with isOnline := .bool true }).2.2.2.2.2
      [("online", .num "0")] (.num "0") rfl).2.1 (Or.inr (Or.inr (Or.inr (Or.inl rfl)))),
   ((checkStatus_malformed_body initialState).2.2.2.2.2
      [("online", .num "1")] (.num "1") rfl).2.2
      (Or.inr (Or.inr (Or.inl ⟨"1", rfl, by decide, by decide⟩))),
   ((checkStatus_malformed_body initialState).2.2.2.2.2
      [("online", .arr [])] (.arr []) rfl).2.2
      (Or.inr (Or.inr (Or.inr (Or.inl ⟨[], rfl⟩)))),
   ((checkStatus_malformed_body initialState).2.2.2.2.2
      [("online", .str "false")] (.str "false") rfl).2.2
      (Or.inr (Or.inl ⟨"false", rfl, by decide⟩))⟩

/-! ## Malformed bodies in the dispatcher -/

/-- C6, as stated, fails: a 2xx response whose body is an object without a
`message` field, and one whose body is absent (the empty string), settle
`runCommand("bridge_up")` with a "Success" entry, which is not rendered as
an error. -/
theorem runCommand_missing_message_logs_success :
    (runCommand initialState "bridge_up" "10:15:00 AM" (.resolved (.obj [])) "10:15:02 AM").logs
        = ["[10:15:02 AM] Success: undefined",
           "[10:15:00 AM] Sending command: bridge_up",
           "[SYSTEM] Dashboard initialized."]
      ∧ (runCommand initialState "bridge_up" "10:15:00 AM" (.resolved (.str ""))
          "10:15:02 AM").logs
        = ["[10:15:02 AM] Success: undefined",
           "[10:15:00 AM] Sending command: bridge_up",
           "[SYSTEM] Dashboard initialized."]
      ∧ isErrorLine "[10:15:02 AM] Success: undefined" = false := by
  decide

/-- C6, amended: for every command key, when the request resolves with a body
that is absent (the empty string), that is any other string, number, boolean
or array, or that is an object without a `message` field, the settlement
entry of `runCommand` is `Success: undefined`, which differs from the generic
error line; the generic error line is the settlement entry when the request
is rejected and when the body is `null`. -/
theorem runCommand_malformed_body (s : AppState) (k t1 t2 : String) :
    (runCommand s k t1 (.resolved (.str "")) t2).logs
        = ("[" ++ t2 ++ "] " ++ "Success: undefined")
            :: ("[" ++ t1 ++ "] " ++ ("Sending command: " ++ k)) :: s.logs
      ∧ (∀ data : JSVal, (∀ fields, data ≠ .obj fields) → data ≠ .null → data ≠ .undefined →
          (runCommand s k t1 (.resolved data) t2).logs
            = ("[" ++ t2 ++ "] " ++ "Success: undefined")
                :: ("[" ++ t1 ++ "] " ++ ("Sending command: " ++ k)) :: s.logs)
      ∧ (∀ fields : List (String × JSVal), lookupField "message" fields = none →
          (runCommand s k t1 (.resolved (.obj fields)) t2).logs
            = ("[" ++ t2 ++ "] " ++ "Success: undefined")
                :: ("[" ++ t1 ++ "] " ++ ("Sending command: " ++ k)) :: s.logs)
      ∧ ("[" ++ t2 ++ "] " ++ "Success: undefined")
          ≠ ("[" ++ t2 ++ "] " ++ "!! ERROR: Failed to reach backend !!")
      ∧ (runCommand s k t1 .rejected t2).logs
        = ("[" ++ t2 ++ "] " ++ "!! ERROR: Failed to reach backend !!")
            :: ("[" ++ t1 ++ "] " ++ ("Sending command: " ++ k)) :: s.logs
      ∧ (runCommand s k t1 (.resolved .null) t2).logs
        = ("[" ++ t2 ++ "] " ++ "!! ERROR: Failed to reach backend !!")
            :: ("[" ++ t1 ++ "] " ++ ("Sending command: " ++ k)) :: s.logs := by
  refine ⟨rfl, ?_, ?_, ?_, rfl, rfl⟩
  · intro data hd hn hu
    cases data with
    | obj fields => exact absurd rfl (hd fields)
    | null => exact absurd rfl hn
    | undefined => exact absurd rfl hu
    | bool b => rfl
    | num t => rfl
    | str t => rfl
    | arr items => rfl
  · intro fields h
    simp [runCommand, runCommandSettle, runCommandTry, Outcome.await, JSVal.getProp, h,
      JSVal.toStr, runCommandStart, addLog]
  · intro h
    have h' := congrArg String.toList h
    simp [String.toList] at h'

/-- C6, amended, at concrete bodies: an object that carries an `error` field
instead of `message`, and the body `true`. -/
theorem runCommand_malformed_body_witness :
    (runCommand initialState "terraform" "10:15:00 AM"
        (.resolved (.obj [("error", .str "no such task")])) "10:15:02 AM").logs
        = ["[10:15:02 AM] Success: undefined",
           "[10:15:00 AM] Sending command: terraform",
           "[SYSTEM] Dashboard initialized."]
      ∧ (runCommand initialState "terraform" "10:15:00 AM"
        (.resolved (.bool true)) "10:15:02 AM").logs
        = ["[10:15:02 AM] Success: undefined",
           "[10:15:00 AM] Sending command: terraform",
           "[SYSTEM] Dashboard initialized."] :=
  ⟨(runCommand_malformed_body initialState "terraform" "10:15:00 AM" "10:15:02 AM").2.2.1
      [("error", .str "no such task")] rfl,
   (runCommand_malformed_body initialState "terraform" "10:15:00 AM" "10:15:02 AM").2.1
      (.bool true) (fun _ h => by cases h) (fun h => by cases h) (fun h => by cases h)⟩

/-! ## The log feed -/

/-- C7: `addLog` yields the log whose head is the entry `[time] message` and
whose tail is the previous log, and leaves the rest of the state alone; over
every sequence of events the earlier log is a suffix of the later one; and
when three dispatches settle in the order A, B, C, with any events in
between, the later log has C's entry before B's before A's before the whole
earlier log. -/
theorem log_feed_newest_first (σ σ' : Sys) (es : List Event) (h : run σ es = some σ') :
    (∀ (s : AppState) (time msg : String),
        (addLog s time msg).logs = ("[" ++ time ++ "] " ++ msg) :: s.logs
          ∧ (addLog s time msg).loading = s.loading
          ∧ (addLog s time msg).isOnline = s.isOnline)
      ∧ σ.app.logs <:+ σ'.app.logs
      ∧ (∀ (oA oB oC : Outcome) (tA tB tC : String) (es1 es2 : List Event),
          es = .dispatchSettled oA tA :: es1 ++ .dispatchSettled oB tB :: es2
                ++ [.dispatchSettled oC tC] →
          ∃ eA eB eC l1 l2,
            (∀ s : AppState, (runCommandSettle s oA tA).logs = eA :: s.logs)
              ∧ (∀ s : AppState, (runCommandSettle s oB tB).logs = eB :: s.logs)
              ∧ (∀ s : AppState, (runCommandSettle s oC tC).logs = eC :: s.logs)
              ∧ σ'.app.logs = eC :: (l2 ++ eB :: (l1 ++ eA :: σ.app.logs))) := by
  refine ⟨fun s time msg => ⟨rfl, rfl, rfl⟩, run_logs_suffix σ σ' es h, ?_⟩
  intro oA oB oC tA tB tC es1 es2 hes
  obtain ⟨eA, hA⟩ := runCommandSettle_logs oA tA
  obtain ⟨eB, hB⟩ := runCommandSettle_logs oB tB
  obtain ⟨eC, hC⟩ := runCommandSettle_logs oC tC
  subst hes
  have split1 : ∀ (τ τ' : Sys) (o : Outcome) (t : String) (e : String),
      (∀ s : AppState, (runCommandSettle s o t).logs = e :: s.logs) →
      step τ (.dispatchSettled o t) = some τ' → τ'.app.logs = e :: τ.app.logs := by
    intro τ τ' o t e he hst
    simp only [step] at hst
    split at hst
    · cases hst
    · simp only [Option.some.injEq] at hst
      subst hst
      exact he _
  -- the first settlement, then the events up to the second
  rw [List.cons_append, List.cons_append] at h
  simp only [run] at h
  cases hsA : step σ (.dispatchSettled oA tA) with
  | none => simp [hsA] at h
  | some σA =>
    simp only [hsA] at h
    rw [List.append_assoc, run_append] at h
    cases h1 : run σA es1 with
    | none => simp [h1] at h
    | some σ1 =>
      simp only [h1, Option.bind] at h
      rw [List.cons_append] at h
      simp only [run] at h
      cases hsB : step σ1 (.dispatchSettled oB tB) with
      | none => simp [hsB] at h
      | some σB =>
        simp only [hsB] at h
        rw [run_append] at h
        cases h2 : run σB es2 with
        | none => simp [h2] at h
        | some σ2 =>
          simp only [h2, Option.bind, run] at h
          cases hsC : step σ2 (.dispatchSettled oC tC) with
          | none => simp [hsC] at h
          | some σC =>
            simp only [hsC, Option.some.injEq] at h
            subst h
            obtain ⟨l1, hl1⟩ := run_logs_suffix σA σ1 es1 h1
            obtain ⟨l2, hl2⟩ := run_logs_suffix σB σ2 es2 h2
            refine ⟨eA, eB, eC, l1, l2, hA, hB, hC, ?_⟩
            rw [split1 σ2 σC oC tC eC hC hsC, ← hl2, split1 σ1 σB oB tB eB hB hsB, ← hl1,
              split1 σ σA oA tA eA hA hsA]

/-- C7, at a concrete run: three dispatches A, B, C, each started after the
previous one settled, from the state in which A has just started. -/
theorem log_feed_newest_first_witness :
    ∃ σ', run { app := runCommandStart initialState "bridge_up" "10:00:00 AM", inFlight := 1 }
          [.dispatchSettled (.resolved (.obj [("message", .str "A done")])) "10:00:01 AM",
           .dispatchStart "terraform" "10:00:02 AM",
           .dispatchSettled .rejected "10:00:03 AM",
           .dispatchStart "bridge_up" "10:00:04 AM",
           .dispatchSettled (.resolved (.obj [("message", .str "C done")])) "10:00:05 AM"]
          = some σ'
      ∧ σ'.app.logs
          = ["[10:00:05 AM] Success: C done",
             "[10:00:04 AM] Sending command: bridge_up",
             "[10:00:03 AM] !! ERROR: Failed to reach backend !!",
             "[10:00:02 AM] Sending command: terraform",
             "[10:00:01 AM] Success: A done",
             "[10:00:00 AM] Sending command: bridge_up",
             "[SYSTEM] Dashboard initialized."]
      ∧ ["[10:00:00 AM] Sending command: bridge_up", "[SYSTEM] Dashboard initialized."]
          <:+ σ'.app.logs :=
  ⟨_, rfl, by decide,
    (log_feed_newest_first
      { app := runCommandStart initialState "bridge_up" "10:00:00 AM", inFlight := 1 } _
      [.dispatchSettled (.resolved (.obj [("message", .str "A done")])) "10:00:01 AM",
       .dispatchStart "terraform" "10:00:02 AM",
       .dispatchSettled .rejected "10:00:03 AM",
       .dispatchStart "bridge_up" "10:00:04 AM",
       .dispatchSettled (.resolved (.obj [("message", .str "C done")])) "10:00:05 AM"]
      rfl).2.1⟩

/-! ## Severity of a log line -/

/-- C10: for every entry that `addLog` builds from a message `msg` at a locale
time string (a string in which `ERROR` does not occur), the entry is rendered
with error severity exactly when `msg` contains `ERROR`, whatever the time
string is; the failure line of the dispatcher is an error entry at every
time, and the initial entry is not an error entry. -/
theorem error_severity_of_message (s : AppState) (time msg : String)
    (ht : includes time "ERROR" = false) :
    (addLog s time msg).logs = ("[" ++ time ++ "] " ++ msg) :: s.logs
      ∧ isErrorLine ("[" ++ time ++ "] " ++ msg) = includes msg "ERROR"
      ∧ logClass ("[" ++ time ++ "] " ++ msg)
          = (if includes msg "ERROR" then "text-red-400" else "text-green-400 opacity-80")
      ∧ (∀ time' : String, includes time' "ERROR" = false →
          isErrorLine ("[" ++ time' ++ "] " ++ msg) = isErrorLine ("[" ++ time ++ "] " ++ msg))
      ∧ isErrorLine ("[" ++ time ++ "] " ++ "!! ERROR: Failed to reach backend !!") = true
      ∧ (∀ entry ∈ initialState.logs, isErrorLine entry = false) := by
  have hm : isErrorLine ("[" ++ time ++ "] " ++ msg) = includes msg "ERROR" := by
    rw [isErrorLine_entry, ht, Bool.false_or]
  refine ⟨rfl, hm, ?_, ?_, ?_, ?_⟩
  · unfold logClass
    rw [hm]
  · intro time' ht'
    rw [hm, isErrorLine_entry, ht', Bool.false_or]
  · rw [isErrorLine_entry, ht, Bool.false_or]
    decide
  · intro entry he
    have : entry = "[SYSTEM] Dashboard initialized." := by
      simpa [initialState] using he
    subst this
    decide

/-- C10, at the two entries of a failed dispatch and at a message with a
lower-case `error`: the failure line is an error entry, the other two are not. -/
theorem error_severity_of_message_witness :
    includes "10:15:30 AM" "ERROR" = false
      ∧ isErrorLine "[10:15:30 AM] !! ERROR: Failed to reach backend !!" = true
      ∧ includes "10:15:00 AM" "ERROR" = false
      ∧ isErrorLine "[10:15:00 AM] Sending command: terraform" = false
      ∧ isErrorLine "[10:15:00 AM] Success: error count 0" = false :=
  ⟨by decide,
   (error_severity_of_message initialState "10:15:30 AM"
      "!! ERROR: Failed to reach backend !!" (by decide)).2.2.2.2.1,
   by decide,
   (error_severity_of_message initialState "10:15:00 AM" "Sending command: terraform"
      (by decide)).2.1.trans (by decide),
   (error_severity_of_message initialState "10:15:00 AM" "Success: error count 0"
      (by decide)).2.1.trans (by decide)⟩

end DevOpsPlatform
